import Mathlib

/-!
Verification of the blogicum blog application's visibility and ownership
rules.  The request handlers are embedded from `blogicum/blog/views.py`
and the form field lists from `blogicum/blog/forms.py`.  The relational
entities (models.py is not part of the sources) are modelled from the
specification's data-model section.  Machine state is an explicit `Store`
value threaded through the handlers; each mutating handler returns the
response together with the successor store.
-/

namespace Blogicum

/-- Modelled from the spec: models.py is absent from the sources; a User
has an identity and a username (spec section 3). -/
structure User where
  id : Nat
  username : String
deriving DecidableEq

/-- Modelled from the spec: a Category is a named grouping with a slug and
an is_published flag (spec section 3). -/
structure Category where
  id : Nat
  slug : String
  is_published : Bool
deriving DecidableEq

/-- Modelled from the spec: a Post has title, body text, a publication
timestamp, an is_published flag, a required author, an optional Category
and optional Location and image (spec section 3).  Timestamps are
natural numbers; foreign keys are entity ids. -/
structure Post where
  id : Nat
  title : String
  text : String
  pub_date : Nat
  is_published : Bool
  author : Nat
  category : Option Nat
  location : Option Nat
  image : Option String
deriving DecidableEq

/-- Modelled from the spec: a Comment has body text, a creation timestamp,
one author and one parent Post (spec section 3). -/
structure Comment where
  id : Nat
  text : String
  created_at : Nat
  author : Nat
  post : Nat
deriving DecidableEq

/-- The persistent store: the relational tables the handlers read and
write. -/
structure Store where
  users : List User
  categories : List Category
  posts : List Post
  comments : List Comment
deriving DecidableEq

/-- HTTP request method, as the handlers distinguish them. -/
inductive Method where
  | get
  | post
deriving DecidableEq

/-- The observable outcome of a handler: a not-found failure, a redirect,
or a rendered template together with its context payload. -/
inductive Response where
  | notFound
  | loginRedirect
  | redirectProfile (userId : Nat)
  | redirectPostDetail (postId : Nat)
  | renderIndex (page : List (Post × Nat))
  | renderDetail (post : Post) (comments : List Comment) (commentFormOffered : Bool)
  | renderCategory (category : Category) (page : List (Post × Nat))
  | renderProfile (user : User) (page : List (Post × Nat))
  | renderCreateForm
  | renderCommentForm
deriving DecidableEq

/-- Row lookup `Post.objects.get(id=id)` style: first post with the given
id (ids are unique under the store's primary-key discipline). -/
def findPost (s : Store) (pid : Nat) : Option Post :=
  s.posts.find? (fun q => decide (q.id = pid))

/-- `get_object_or_404(Comment, id=comment_id, post_id=post_id)`. -/
def findComment (s : Store) (pid cid : Nat) : Option Comment :=
  s.comments.find? (fun c => decide (c.id = cid) && decide (c.post = pid))

/-- `get_object_or_404(Category, slug=category_slug, is_published=True)`. -/
def findPubCategory (s : Store) (slug : String) : Option Category :=
  s.categories.find? (fun c => decide (c.slug = slug) && c.is_published)

/-- `get_object_or_404(User, username=username)`. -/
def findUser (s : Store) (name : String) : Option User :=
  s.users.find? (fun u => decide (u.username = name))

/-- Category foreign-key dereference for a post. -/
def catLookup (s : Store) (cid : Nat) : Option Category :=
  s.categories.find? (fun c => decide (c.id = cid))

/-- The joined condition `category__is_published=True` of the feed
queries: the post has a category and that category is published (a null
foreign key fails the join). -/
def categoryPub (s : Store) (p : Post) : Bool :=
  match p.category with
  | none => false
  | some cid =>
    match catLookup s cid with
    | some c => c.is_published
    | none => false

/-- `Count('comments')` annotation value for one post. -/
def commentCount (s : Store) (pid : Nat) : Nat :=
  (s.comments.filter (fun c => decide (c.post = pid))).length

/-- `annotate(comment_count=Count('comments'))`: pair each post with its
comment count. -/
def withCount (s : Store) (l : List Post) : List (Post × Nat) :=
  l.map (fun p => (p, commentCount s p.id))

/-- Boolean comparator realising `order_by('-pub_date')`: `r a b` holds
when `a` may precede `b` in the descending listing. -/
def pubDateGe (a b : Post × Nat) : Bool :=
  decide (b.1.pub_date ≤ a.1.pub_date)

/-- Boolean comparator realising `order_by('created_at')` on comments. -/
def createdLe (a b : Comment) : Bool :=
  decide (a.created_at ≤ b.created_at)

/-- Insert an element into a list assumed sorted for comparator `r`. -/
def insertSorted (r : α → α → Bool) (p : α) : List α → List α
  | [] => [p]
  | q :: qs => if r q p then q :: insertSorted r p qs else p :: q :: qs

/-- Insertion sort for comparator `r`; the deterministic realisation of
the ORM's `order_by`. -/
def sortBy (r : α → α → Bool) : List α → List α
  | [] => []
  | p :: ps => insertSorted r p (sortBy r ps)

/-- Number of pages of Django's `Paginator` (at least one page even when
the listing is empty). -/
def numPages (count pageSize : Nat) : Nat :=
  max 1 ((count + pageSize - 1) / pageSize)

/-- Page selection of `Paginator.get_page`: a missing or non-integer page
parameter selects page 1, an out-of-range one the last page. -/
def paginatePage (count pageSize : Nat) (pr : Option Nat) : Nat :=
  match pr with
  | none => 1
  | some n => if n = 0 || numPages count pageSize < n then numPages count pageSize else n

/-- The slice of the listing shown for the requested page. -/
def paginate (l : List α) (pageSize : Nat) (pr : Option Nat) : List α :=
  (l.drop ((paginatePage l.length pageSize pr - 1) * pageSize)).take pageSize

/-- The home-feed listing of `index` (views.py lines 17-27): published
posts with a published category and a past-or-present pub_date, the
category-less excluded, comment-annotated, newest first. -/
def indexList (s : Store) (now : Nat) : List (Post × Nat) :=
  sortBy pubDateGe (withCount s
    (((s.posts.filter (fun p =>
        p.is_published && categoryPub s p && decide (p.pub_date ≤ now))).filter
      (fun p => !p.category.isNone))))

/-- Handler `index` (views.py lines 16-34). -/
def index (s : Store) (now : Nat) (pr : Option Nat) : Response :=
  .renderIndex (paginate (indexList s now) 10 pr)

/-- The per-post visibility check of `post_detail` (views.py lines
45-49): published flag, category absent or published, pub_date at or
before now. -/
def visibleToPublic (s : Store) (now : Nat) (p : Post) : Bool :=
  p.is_published && (p.category.isNone || categoryPub s p) && decide (p.pub_date ≤ now)

/-- The comments attached to a served post (views.py line 56), in
creation order. -/
def detailComments (s : Store) (p : Post) : List Comment :=
  sortBy createdLe (s.comments.filter (fun c => decide (c.post = p.id)))

/-- Handler `post_detail` (views.py lines 37-63).  The requester is the
authenticated user id, or `none` when anonymous. -/
def post_detail (s : Store) (now : Nat) (req : Option Nat) (pid : Nat) : Response :=
  match findPost s pid with
  | none => .notFound
  | some post =>
    if ¬ (visibleToPublic s now post = true) ∧ ¬ (req = some post.author) then
      .notFound
    else
      .renderDetail post (detailComments s post) req.isSome

/-- The category-feed listing of `category_posts` (views.py lines 72-80). -/
def categoryList (s : Store) (now : Nat) (c : Category) : List (Post × Nat) :=
  sortBy pubDateGe (withCount s
    (s.posts.filter (fun p =>
      decide (p.category = some c.id) && p.is_published && decide (p.pub_date ≤ now))))

/-- Handler `category_posts` (views.py lines 66-90). -/
def category_posts (s : Store) (now : Nat) (pr : Option Nat) (slug : String) : Response :=
  match findPubCategory s slug with
  | none => .notFound
  | some c => .renderCategory c (paginate (categoryList s now c) 10 pr)

/-- The profile-feed listing of `profile` (views.py lines 95-101): every
post of the author, no visibility filter. -/
def profileList (s : Store) (u : User) : List (Post × Nat) :=
  sortBy pubDateGe (withCount s (s.posts.filter (fun p => decide (p.author = u.id))))

/-- Handler `profile` (views.py lines 93-111).  The requester parameter is
the framework-injected current user; the handler body never consults it. -/
def profile (s : Store) (req : Option Nat) (pr : Option Nat) (name : String) : Response :=
  match findUser s name with
  | none => .notFound
  | some u => .renderProfile u (paginate (profileList s u) 10 pr)

/-- The submitted post form data.  `PostForm`'s `Meta.fields` lists only
title, text, pub_date, location, category and image (forms.py line 13);
the `author` component models a tampered extra field of the raw
submission, which the form never binds. -/
structure PostFormData where
  title : String
  text : String
  pub_date : Nat
  category : Option Nat
  location : Option Nat
  image : Option String
  author : Option Nat
deriving DecidableEq

/-- Modelled from the spec: Django's required-field validation of the
post form (the framework collaborator); the required textual fields must
be non-blank. -/
def postFormIsValid (d : PostFormData) : Bool :=
  !(decide (d.title = "")) && !(decide (d.text = ""))

/-- `form.save(commit=False)` with an instance: copy exactly the
`Meta.fields` of `PostForm` onto the instance.  The author is not among
them and is left untouched; the tampered `author` component is ignored. -/
def applyPostForm (d : PostFormData) (p : Post) : Post :=
  { p with title := d.title, text := d.text, pub_date := d.pub_date,
           category := d.category, location := d.location, image := d.image }

/-- Modelled from the spec: models.py is absent from the sources; the
Post model's default for the is_published flag is not referenced by any
claim and is fixed as true. -/
def postDefaultIsPublished : Bool := true

/-- Fresh primary key for an inserted post. -/
def freshPostId (s : Store) : Nat :=
  (s.posts.map (fun p => p.id)).foldr Nat.max 0 + 1

/-- Fresh primary key for an inserted comment. -/
def freshCommentId (s : Store) : Nat :=
  (s.comments.map (fun c => c.id)).foldr Nat.max 0 + 1

/-- `form.save(commit=False)` without an instance: a new post built from
the bound fields; the author is filled by the handler afterwards. -/
def newPostFromForm (d : PostFormData) (pid : Nat) (u : Nat) : Post :=
  { id := pid, title := d.title, text := d.text, pub_date := d.pub_date,
    is_published := postDefaultIsPublished, author := u,
    category := d.category, location := d.location, image := d.image }

/-- Handler `post_create` (views.py lines 127-139): login-required; on a
valid POST the new post's author is set to the requester and the row
inserted. -/
def post_create (s : Store) (req : Option Nat) (m : Method) (d : PostFormData) :
    Response × Store :=
  match req with
  | none => (.loginRedirect, s)
  | some u =>
    match m with
    | .post =>
      if postFormIsValid d then
        (.redirectProfile u,
          { s with posts := newPostFromForm d (freshPostId s) u :: s.posts })
      else (.renderCreateForm, s)
    | .get => (.renderCreateForm, s)

/-- UPDATE of the first row matching the post id (the primary-key row). -/
def updateFirstPost (pid : Nat) (p' : Post) : List Post → List Post
  | [] => []
  | q :: qs => if q.id = pid then p' :: qs else q :: updateFirstPost pid p' qs

/-- DELETE of the first row matching the post id. -/
def removeFirstPost (pid : Nat) : List Post → List Post
  | [] => []
  | q :: qs => if q.id = pid then qs else q :: removeFirstPost pid qs

/-- UPDATE of the first row matching a comment id and parent post id. -/
def updateFirstComment (pid cid : Nat) (c' : Comment) : List Comment → List Comment
  | [] => []
  | q :: qs => if q.id = cid ∧ q.post = pid then c' :: qs else q :: updateFirstComment pid cid c' qs

/-- DELETE of the first row matching a comment id and parent post id. -/
def removeFirstComment (pid cid : Nat) : List Comment → List Comment
  | [] => []
  | q :: qs => if q.id = cid ∧ q.post = pid then qs else q :: removeFirstComment pid cid qs

/-- Handler `post_edit` (views.py lines 142-159): login-required; a
requester other than the author is silently redirected to the post's
detail view; on a valid POST the bound fields are saved and the author
re-forced to the requester. -/
def post_edit (s : Store) (req : Option Nat) (m : Method) (pid : Nat) (d : PostFormData) :
    Response × Store :=
  match req with
  | none => (.loginRedirect, s)
  | some u =>
    match findPost s pid with
    | none => (.notFound, s)
    | some post =>
      if post.author ≠ u then (.redirectPostDetail pid, s)
      else
        match m with
        | .post =>
          if postFormIsValid d then
            (.redirectPostDetail pid,
              { s with posts :=
                updateFirstPost pid { applyPostForm d post with author := u } s.posts })
          else (.renderCreateForm, s)
        | .get => (.renderCreateForm, s)

/-- Handler `post_delete` (views.py lines 162-175): login-required; a
requester other than the author is silently redirected; a POST deletes
the post (comments cascade per the relational schema) and redirects to
the requester's profile. -/
def post_delete (s : Store) (req : Option Nat) (m : Method) (pid : Nat) :
    Response × Store :=
  match req with
  | none => (.loginRedirect, s)
  | some u =>
    match findPost s pid with
    | none => (.notFound, s)
    | some post =>
      if post.author ≠ u then (.redirectPostDetail pid, s)
      else
        match m with
        | .post =>
          (.redirectProfile u,
            { s with posts := removeFirstPost pid s.posts,
                     comments := s.comments.filter (fun c => !(decide (c.post = post.id))) })
        | .get => (.renderCreateForm, s)

/-- Modelled from the spec: Django's required-field validation of the
comment form's single free-text field (forms.py lines 26-29); blank text
fails validation. -/
def commentFormIsValid (text : String) : Bool :=
  !(decide (text = ""))

/-- Handler `add_comment` (views.py lines 178-188): login-required; a
valid form inserts a comment owned by the requester on the post;
regardless of validity the response redirects to the post's detail
view. -/
def add_comment (s : Store) (now : Nat) (req : Option Nat) (pid : Nat) (text : String) :
    Response × Store :=
  match req with
  | none => (.loginRedirect, s)
  | some u =>
    match findPost s pid with
    | none => (.notFound, s)
    | some post =>
      if commentFormIsValid text then
        (.redirectPostDetail pid,
          { s with comments :=
            { id := freshCommentId s, text := text, created_at := now,
              author := u, post := post.id } :: s.comments })
      else (.redirectPostDetail pid, s)

/-- Handler `edit_comment` (views.py lines 191-206): login-required; a
requester other than the comment's author is silently redirected to the
post's detail view. -/
def edit_comment (s : Store) (req : Option Nat) (m : Method) (pid cid : Nat) (text : String) :
    Response × Store :=
  match req with
  | none => (.loginRedirect, s)
  | some u =>
    match findComment s pid cid with
    | none => (.notFound, s)
    | some c =>
      if c.author ≠ u then (.redirectPostDetail pid, s)
      else
        match m with
        | .post =>
          if commentFormIsValid text then
            (.redirectPostDetail pid,
              { s with comments := updateFirstComment pid cid { c with text := text } s.comments })
          else (.renderCommentForm, s)
        | .get => (.renderCommentForm, s)

/-- Handler `delete_comment` (views.py lines 209-221): login-required; a
requester other than the comment's author is silently redirected; a POST
deletes the comment and redirects to the post's detail view. -/
def delete_comment (s : Store) (req : Option Nat) (m : Method) (pid cid : Nat) :
    Response × Store :=
  match req with
  | none => (.loginRedirect, s)
  | some u =>
    match findComment s pid cid with
    | none => (.notFound, s)
    | some c =>
      if c.author ≠ u then (.redirectPostDetail pid, s)
      else
        match m with
        | .post =>
          (.redirectPostDetail pid,
            { s with comments := removeFirstComment pid cid s.comments })
        | .get => (.renderCommentForm, s)

/-- Demonstration user for concrete evaluations. -/
def user1 : User := { id := 1, username := "alice" }

/-- Second demonstration user. -/
def user2 : User := { id := 2, username := "bob" }

/-- Published demonstration category. -/
def cat1 : Category := { id := 1, slug := "news", is_published := true }

/-- Unpublished demonstration category. -/
def cat2 : Category := { id := 2, slug := "old", is_published := false }

/-- Published, categorised demonstration post. -/
def postA : Post :=
  { id := 1, title := "a", text := "ta", pub_date := 5, is_published := true,
    author := 1, category := some 1, location := none, image := none }

/-- Published demonstration post without a category, owned by user2. -/
def postB : Post :=
  { id := 2, title := "b", text := "tb", pub_date := 5, is_published := true,
    author := 2, category := none, location := none, image := none }

/-- Unpublished demonstration post owned by user1. -/
def postC : Post :=
  { id := 3, title := "c", text := "tc", pub_date := 4, is_published := false,
    author := 1, category := some 1, location := none, image := none }

/-- Demonstration comment on postA by user2. -/
def comment1 : Comment :=
  { id := 1, text := "hi", created_at := 3, author := 2, post := 1 }

/-- Second demonstration comment on postA, created later. -/
def comment2 : Comment :=
  { id := 2, text := "yo", created_at := 7, author := 1, post := 1 }

/-- Demonstration store for concrete evaluations of the handlers. -/
def demoStore : Store :=
  { users := [user1, user2], categories := [cat1, cat2],
    posts := [postA, postB, postC], comments := [comment1, comment2] }

/-- Demonstration post-form submission carrying a tampered author field. -/
def demoPostForm : PostFormData :=
  { title := "t", text := "x", pub_date := 6, category := some 1,
    location := none, image := none, author := some 99 }

theorem mem_insertSorted (r : α → α → Bool) (p a : α) (l : List α) :
    a ∈ insertSorted r p l ↔ a = p ∨ a ∈ l := by
  induction l with
  | nil => simp [insertSorted]
  | cons q qs ih =>
    by_cases h : r q p = true
    · simp only [insertSorted, if_pos h, List.mem_cons, ih]
      tauto
    · simp only [insertSorted, if_neg h, List.mem_cons]

theorem mem_sortBy (r : α → α → Bool) (a : α) (l : List α) :
    a ∈ sortBy r l ↔ a ∈ l := by
  induction l with
  | nil => simp [sortBy]
  | cons q qs ih =>
    simp [sortBy, mem_insertSorted, ih]

theorem pairwise_insertSorted (r : α → α → Bool)
    (htrans : ∀ a b c, r a b = true → r b c = true → r a c = true)
    (htot : ∀ a b, r a b = true ∨ r b a = true)
    (p : α) (l : List α) (h : l.Pairwise (fun a b => r a b = true)) :
    (insertSorted r p l).Pairwise (fun a b => r a b = true) := by
  induction l with
  | nil => simp [insertSorted]
  | cons q qs ih =>
    rcases List.pairwise_cons.mp h with ⟨hq, hqs⟩
    by_cases hc : r q p = true
    · rw [insertSorted, if_pos hc]
      refine List.pairwise_cons.mpr ⟨?_, ih hqs⟩
      intro a ha
      rcases (mem_insertSorted r p a qs).mp ha with rfl | ha
      · exact hc
      · exact hq a ha
    · rw [insertSorted, if_neg hc]
      have hpq : r p q = true := (htot q p).resolve_left hc
      refine List.pairwise_cons.mpr ⟨?_, h⟩
      intro a ha
      rcases List.mem_cons.mp ha with rfl | ha
      · exact hpq
      · exact htrans p q a hpq (hq a ha)

theorem pairwise_sortBy (r : α → α → Bool)
    (htrans : ∀ a b c, r a b = true → r b c = true → r a c = true)
    (htot : ∀ a b, r a b = true ∨ r b a = true)
    (l : List α) :
    (sortBy r l).Pairwise (fun a b => r a b = true) := by
  induction l with
  | nil => simp [sortBy]
  | cons q qs ih => exact pairwise_insertSorted r htrans htot q _ ih

theorem pubDateGe_trans (a b c : Post × Nat) :
    pubDateGe a b = true → pubDateGe b c = true → pubDateGe a c = true := by
  simp only [pubDateGe, decide_eq_true_eq]
  omega

theorem pubDateGe_total (a b : Post × Nat) :
    pubDateGe a b = true ∨ pubDateGe b a = true := by
  simp only [pubDateGe, decide_eq_true_eq]
  omega

theorem createdLe_trans (a b c : Comment) :
    createdLe a b = true → createdLe b c = true → createdLe a c = true := by
  simp only [createdLe, decide_eq_true_eq]
  omega

theorem createdLe_total (a b : Comment) :
    createdLe a b = true ∨ createdLe b a = true := by
  simp only [createdLe, decide_eq_true_eq]
  omega

theorem length_paginate (l : List α) (ps : Nat) (pr : Option Nat) :
    (paginate l ps pr).length ≤ ps := by
  simp only [paginate, List.length_take]
  omega

theorem mem_withCount (s : Store) (l : List Post) (p : Post) (k : Nat) :
    (p, k) ∈ withCount s l ↔ p ∈ l ∧ k = commentCount s p.id := by
  simp only [withCount, List.mem_map, Prod.mk.injEq]
  constructor
  · rintro ⟨q, hq, rfl, rfl⟩
    exact ⟨hq, rfl⟩
  · rintro ⟨hp, rfl⟩
    exact ⟨p, hp, rfl, rfl⟩

theorem categoryPub_iff (s : Store) (p : Post) :
    categoryPub s p = true ↔
      ∃ cid c, p.category = some cid ∧ catLookup s cid = some c ∧ c.is_published = true := by
  constructor
  · intro h
    unfold categoryPub at h
    split at h
    · cases h
    · rename_i cid hcat
      split at h
      · rename_i c hc
        exact ⟨cid, c, hcat, hc, h⟩
      · cases h
  · rintro ⟨cid, c, hcat, hc, hpub⟩
    simp only [categoryPub, hcat, hc]
    exact hpub

theorem categoryPub_category_ne (s : Store) (p : Post) (h : categoryPub s p = true) :
    p.category.isNone = false := by
  rcases (categoryPub_iff s p).mp h with ⟨cid, c, hcat, _, _⟩
  simp [hcat]

theorem mem_indexList (s : Store) (now : Nat) (p : Post) (k : Nat) :
    (p, k) ∈ indexList s now ↔
      p ∈ s.posts ∧ p.is_published = true ∧ categoryPub s p = true ∧
        p.pub_date ≤ now ∧ k = commentCount s p.id := by
  rw [indexList, mem_sortBy, mem_withCount, List.mem_filter, List.mem_filter]
  simp only [Bool.and_eq_true, decide_eq_true_eq, Bool.not_eq_true']
  have hne := categoryPub_category_ne s p
  constructor
  · rintro ⟨⟨⟨hp, ⟨hpub, hcat⟩, hdate⟩, _⟩, rfl⟩
    exact ⟨hp, hpub, hcat, hdate, rfl⟩
  · rintro ⟨hp, hpub, hcat, hdate, rfl⟩
    exact ⟨⟨⟨hp, ⟨hpub, hcat⟩, hdate⟩, hne hcat⟩, rfl⟩

theorem mem_categoryList (s : Store) (now : Nat) (c : Category) (p : Post) (k : Nat) :
    (p, k) ∈ categoryList s now c ↔
      p ∈ s.posts ∧ p.category = some c.id ∧ p.is_published = true ∧
        p.pub_date ≤ now ∧ k = commentCount s p.id := by
  rw [categoryList, mem_sortBy, mem_withCount, List.mem_filter]
  simp only [Bool.and_eq_true, decide_eq_true_eq]
  tauto

theorem mem_profileList (s : Store) (u : User) (p : Post) (k : Nat) :
    (p, k) ∈ profileList s u ↔
      p ∈ s.posts ∧ p.author = u.id ∧ k = commentCount s p.id := by
  rw [profileList, mem_sortBy, mem_withCount, List.mem_filter]
  simp only [decide_eq_true_eq]
  tauto

theorem sorted_sortBy_pubDate (l : List (Post × Nat)) :
    (sortBy pubDateGe l).Pairwise (fun a b => b.1.pub_date ≤ a.1.pub_date) := by
  have h := pairwise_sortBy pubDateGe pubDateGe_trans pubDateGe_total l
  exact h.imp (fun hab => by simpa [pubDateGe] using hab)

theorem sorted_sortBy_created (l : List Comment) :
    (sortBy createdLe l).Pairwise (fun a b => a.created_at ≤ b.created_at) := by
  have h := pairwise_sortBy createdLe createdLe_trans createdLe_total l
  exact h.imp (fun hab => by simpa [createdLe] using hab)

theorem sorted_indexList (s : Store) (now : Nat) :
    (indexList s now).Pairwise (fun a b => b.1.pub_date ≤ a.1.pub_date) := by
  unfold indexList
  exact sorted_sortBy_pubDate _

theorem sorted_categoryList (s : Store) (now : Nat) (c : Category) :
    (categoryList s now c).Pairwise (fun a b => b.1.pub_date ≤ a.1.pub_date) := by
  unfold categoryList
  exact sorted_sortBy_pubDate _

theorem sorted_profileList (s : Store) (u : User) :
    (profileList s u).Pairwise (fun a b => b.1.pub_date ≤ a.1.pub_date) := by
  unfold profileList
  exact sorted_sortBy_pubDate _

theorem sorted_detailComments (s : Store) (p : Post) :
    (detailComments s p).Pairwise (fun a b => a.created_at ≤ b.created_at) := by
  unfold detailComments
  exact sorted_sortBy_created _

theorem map_idAuthor_updateFirstPost (pid : Nat) (p' q0 : Post) (l : List Post)
    (hf : l.find? (fun q => decide (q.id = pid)) = some q0)
    (hid : p'.id = q0.id) (hau : p'.author = q0.author) :
    (updateFirstPost pid p' l).map (fun q => (q.id, q.author)) =
      l.map (fun q => (q.id, q.author)) := by
  induction l with
  | nil => simp at hf
  | cons q qs ih =>
    by_cases h : q.id = pid
    · rw [List.find?_cons_of_pos _ (by simpa using h)] at hf
      injection hf with hq
      subst hq
      simp [updateFirstPost, h, hid, hau]
    · rw [List.find?_cons_of_neg _ (by simpa using h)] at hf
      simp only [updateFirstPost, if_neg h, List.map_cons]
      rw [ih hf]

theorem find?_updateFirstPost (pid : Nat) (p' q0 : Post) (l : List Post)
    (hf : l.find? (fun q => decide (q.id = pid)) = some q0)
    (hid : p'.id = pid) :
    (updateFirstPost pid p' l).find? (fun q => decide (q.id = pid)) = some p' := by
  induction l with
  | nil => simp at hf
  | cons q qs ih =>
    by_cases h : q.id = pid
    · rw [updateFirstPost, if_pos h]
      exact List.find?_cons_of_pos _ (by simpa using hid)
    · rw [List.find?_cons_of_neg _ (by simpa using h)] at hf
      rw [updateFirstPost, if_neg h]
      rw [List.find?_cons_of_neg _ (by simpa using h)]
      exact ih hf

/-- C1: a post appears in the home feed — the full ordered listing that
the page parameter slices — iff its is_published flag is set, it has a
category, that category's is_published flag is set, and its pub_date is
at or before the server clock at request time. -/
theorem C1_home_feed_membership (s : Store) (now : Nat) (p : Post) :
    (∃ k, (p, k) ∈ indexList s now) ↔
      p ∈ s.posts ∧ p.is_published = true ∧
        (∃ cid c, p.category = some cid ∧ catLookup s cid = some c ∧ c.is_published = true) ∧
        p.pub_date ≤ now := by
  constructor
  · rintro ⟨k, hk⟩
    rcases (mem_indexList s now p k).mp hk with ⟨hp, hpub, hcat, hdate, _⟩
    exact ⟨hp, hpub, (categoryPub_iff s p).mp hcat, hdate⟩
  · rintro ⟨hp, hpub, hcat, hdate⟩
    exact ⟨commentCount s p.id,
      (mem_indexList s now p _).mpr ⟨hp, hpub, (categoryPub_iff s p).mpr hcat, hdate, rfl⟩⟩

/-- C2: the single-post view serves a stored post iff the requester is
its authenticated author or the post passes the public-visibility check
(published flag, category absent or published, pub_date at or before
now); otherwise, and for an absent id, the outcome is the same not-found
response, so an invisible post is indistinguishable from a non-existent
one. -/
theorem C2_post_detail_authorization (s : Store) (now : Nat) (req : Option Nat) (pid : Nat) :
    (findPost s pid = none → post_detail s now req pid = Response.notFound) ∧
    (∀ p, findPost s pid = some p →
      (post_detail s now req pid =
          Response.renderDetail p (detailComments s p) req.isSome ↔
        (req = some p.author ∨ visibleToPublic s now p = true)) ∧
      (¬(req = some p.author ∨ visibleToPublic s now p = true) →
        post_detail s now req pid = Response.notFound)) := by
  constructor
  · intro h
    simp [post_detail, h]
  · intro p hp
    by_cases hc : ¬ (visibleToPublic s now p = true) ∧ ¬ (req = some p.author)
    · have hd : post_detail s now req pid = Response.notFound := by
        simp only [post_detail, hp]
        rw [if_pos hc]
      refine ⟨⟨fun hr => ?_, fun hor => ?_⟩, fun _ => hd⟩
      · rw [hd] at hr
        exact absurd hr (by simp)
      · exact absurd hor (by tauto)
    · have hd : post_detail s now req pid =
          Response.renderDetail p (detailComments s p) req.isSome := by
        simp only [post_detail, hp]
        rw [if_neg hc]
      refine ⟨⟨fun _ => by tauto, fun _ => hd⟩, fun hno => ?_⟩
      exact absurd (by tauto : req = some p.author ∨ visibleToPublic s now p = true) hno

/-- C2 witness: the unpublished demonstration post is refused to an
anonymous requester with the not-found outcome. -/
theorem C2_witness : post_detail demoStore 10 none 3 = Response.notFound :=
  ((C2_post_detail_authorization demoStore 10 none 3).2 postC (by decide)).2 (by decide)

/-- C3: a valid create persists a new post whose author is the requester
regardless of the tampered author field of the submission; an edit never
changes any stored post's author pairing, and a successful edit leaves
the edited post's author equal to the requester (who, by the ownership
gate, is the original author). -/
theorem C3_author_forced (s : Store) (u : Nat) (d : PostFormData) :
    (postFormIsValid d = true →
      ∃ p, (post_create s (some u) Method.post d).2.posts = p :: s.posts ∧ p.author = u) ∧
    (∀ (m : Method) (pid : Nat),
      ((post_edit s (some u) m pid d).2.posts).map (fun q => (q.id, q.author)) =
        s.posts.map (fun q => (q.id, q.author))) ∧
    (∀ pid post, findPost s pid = some post → post.author = u → postFormIsValid d = true →
      ∃ p', findPost (post_edit s (some u) Method.post pid d).2 pid = some p' ∧
        p'.author = u) := by
  refine ⟨?_, ?_, ?_⟩
  · intro hv
    refine ⟨newPostFromForm d (freshPostId s) u, ?_, rfl⟩
    simp [post_create, hv]
  · intro m pid
    cases hp : findPost s pid with
    | none => simp [post_edit, hp]
    | some post =>
      by_cases hau : post.author ≠ u
      · simp [post_edit, hp, hau]
      · push_neg at hau
        cases m with
        | get => simp [post_edit, hp, hau]
        | post =>
          by_cases hv : postFormIsValid d = true
          · simp only [post_edit, hp, hv, hau, ne_eq, not_true_eq_false, if_false, if_true]
            exact map_idAuthor_updateFirstPost pid _ post s.posts hp rfl hau.symm
          · simp [post_edit, hp, hau, hv]
  · intro pid post hp hau hv
    have hpid : post.id = pid := by
      have h := List.find?_some
        (show s.posts.find? (fun q => decide (q.id = pid)) = some post from hp)
      exact of_decide_eq_true h
    refine ⟨{ applyPostForm d post with author := u }, ?_, rfl⟩
    simp only [post_edit, hp, hau, ne_eq, not_true_eq_false, if_false, hv, if_true]
    exact find?_updateFirstPost pid _ post s.posts hp hpid

/-- C3 witness: creating a post as user 1 from a submission whose author
field names user 99 still persists author 1. -/
theorem C3_witness :
    ∃ p, (post_create demoStore (some 1) Method.post demoPostForm).2.posts =
      p :: demoStore.posts ∧ p.author = 1 :=
  (C3_author_forced demoStore 1 demoPostForm).1 (by decide)

/-- C4: an authenticated requester who is not the owning author of a
stored post or comment gets, from each of the four mutation handlers, a
redirect to the entity's post-detail view with the store unchanged and no
error surfaced. -/
theorem C4_nonowner_redirect_noop (s : Store) (u : Nat) (m : Method) (d : PostFormData)
    (t : String) (pid cid : Nat) :
    (∀ post, findPost s pid = some post → post.author ≠ u →
      post_edit s (some u) m pid d = (Response.redirectPostDetail pid, s) ∧
      post_delete s (some u) m pid = (Response.redirectPostDetail pid, s)) ∧
    (∀ c, findComment s pid cid = some c → c.author ≠ u →
      edit_comment s (some u) m pid cid t = (Response.redirectPostDetail pid, s) ∧
      delete_comment s (some u) m pid cid = (Response.redirectPostDetail pid, s)) := by
  constructor
  · intro post hp hne
    constructor
    · simp [post_edit, hp, hne]
    · simp [post_delete, hp, hne]
  · intro c hc hne
    constructor
    · simp [edit_comment, hc, hne]
    · simp [delete_comment, hc, hne]

/-- C4 witness: user 1 attempting to edit or delete user 2's post and
comment is redirected with the demonstration store intact. -/
theorem C4_witness :
    (post_edit demoStore (some 1) Method.post 2 demoPostForm =
        (Response.redirectPostDetail 2, demoStore) ∧
      post_delete demoStore (some 1) Method.post 2 =
        (Response.redirectPostDetail 2, demoStore)) ∧
    (edit_comment demoStore (some 1) Method.post 1 1 "hey" =
        (Response.redirectPostDetail 1, demoStore) ∧
      delete_comment demoStore (some 1) Method.post 1 1 =
        (Response.redirectPostDetail 1, demoStore)) :=
  ⟨(C4_nonowner_redirect_noop demoStore 1 Method.post demoPostForm "hey" 2 1).1 postB
      (by decide) (by decide),
    (C4_nonowner_redirect_noop demoStore 1 Method.post demoPostForm "hey" 1 1).2 comment1
      (by decide) (by decide)⟩

/-- C5: a category-feed request by slug fails with not-found when no
stored category carries that slug with its is_published flag set;
otherwise it renders the category with its paginated listing, and that
listing holds exactly the stored posts of the category that are published
with a pub_date at or before now. -/
theorem C5_category_feed (s : Store) (now : Nat) (pr : Option Nat) (slug : String) :
    ((∀ c ∈ s.categories, ¬(c.slug = slug ∧ c.is_published = true)) →
      category_posts s now pr slug = Response.notFound) ∧
    (∀ c, findPubCategory s slug = some c →
      category_posts s now pr slug =
        Response.renderCategory c (paginate (categoryList s now c) 10 pr) ∧
      ∀ p, (∃ k, (p, k) ∈ categoryList s now c) ↔
        (p ∈ s.posts ∧ p.category = some c.id ∧ p.is_published = true ∧
          p.pub_date ≤ now)) := by
  constructor
  · intro h
    have hnone : findPubCategory s slug = none := by
      rw [findPubCategory, List.find?_eq_none]
      intro c hc
      simp only [Bool.and_eq_true, decide_eq_true_eq, not_and]
      intro h1 h2
      exact h c hc ⟨h1, h2⟩
    simp [category_posts, hnone]
  · intro c hc
    refine ⟨by simp [category_posts, hc], ?_⟩
    intro p
    constructor
    · rintro ⟨k, hk⟩
      rcases (mem_categoryList s now c p k).mp hk with ⟨hp, h1, h2, h3, _⟩
      exact ⟨hp, h1, h2, h3⟩
    · rintro ⟨hp, h1, h2, h3⟩
      exact ⟨commentCount s p.id, (mem_categoryList s now c p _).mpr ⟨hp, h1, h2, h3, rfl⟩⟩

/-- C5 witness: the published demonstration category renders its listing,
and the unpublished slug is refused with not-found. -/
theorem C5_witness :
    category_posts demoStore 10 none "news" =
      Response.renderCategory cat1 (paginate (categoryList demoStore 10 cat1) 10 none) ∧
    category_posts demoStore 10 none "old" = Response.notFound :=
  ⟨((C5_category_feed demoStore 10 none "news").2 cat1 (by decide)).1,
    (C5_category_feed demoStore 10 none "old").1 (by decide)⟩

/-- C6: a profile-feed request fails with not-found when no stored user
carries the username; otherwise it renders the user with the paginated
listing of exactly that user's posts regardless of any visibility flag,
each annotated with its comment count and ordered by pub_date
descending. -/
theorem C6_profile_feed (s : Store) (req pr : Option Nat) (name : String) :
    ((∀ v ∈ s.users, ¬(v.username = name)) → profile s req pr name = Response.notFound) ∧
    (∀ u, findUser s name = some u →
      profile s req pr name =
        Response.renderProfile u (paginate (profileList s u) 10 pr) ∧
      (∀ p, (∃ k, (p, k) ∈ profileList s u) ↔ (p ∈ s.posts ∧ p.author = u.id)) ∧
      (∀ p k, (p, k) ∈ profileList s u → k = commentCount s p.id) ∧
      (profileList s u).Pairwise (fun a b => b.1.pub_date ≤ a.1.pub_date)) := by
  constructor
  · intro h
    have hnone : findUser s name = none := by
      rw [findUser, List.find?_eq_none]
      intro v hv
      simp only [decide_eq_true_eq]
      exact h v hv
    simp [profile, hnone]
  · intro u hu
    refine ⟨by simp [profile, hu], ?_, ?_, sorted_profileList s u⟩
    · intro p
      constructor
      · rintro ⟨k, hk⟩
        rcases (mem_profileList s u p k).mp hk with ⟨hp, ha, _⟩
        exact ⟨hp, ha⟩
      · rintro ⟨hp, ha⟩
        exact ⟨commentCount s p.id, (mem_profileList s u p _).mpr ⟨hp, ha, rfl⟩⟩
    · intro p k hk
      exact ((mem_profileList s u p k).mp hk).2.2

/-- C6 witness: the profile of the demonstration user renders their
listing, and an unknown username is refused with not-found. -/
theorem C6_witness :
    profile demoStore none none "alice" =
      Response.renderProfile user1 (paginate (profileList demoStore user1) 10 none) ∧
    profile demoStore none none "nobody" = Response.notFound :=
  ⟨((C6_profile_feed demoStore none none "alice").2 user1 (by decide)).1,
    (C6_profile_feed demoStore none none "nobody").1 (by decide)⟩

/-- C7: every listing (home, category, profile) is ordered by pub_date
descending and sliced by the paginator at page size 10, so a rendered
page never exceeds ten posts; a successfully served single-post view
lists its comments in creation order and offers the comment form exactly
to authenticated requesters. -/
theorem C7_ordering_pagination (s : Store) (now : Nat) (pr req : Option Nat)
    (c : Category) (u : User) (pid : Nat) :
    (indexList s now).Pairwise (fun a b => b.1.pub_date ≤ a.1.pub_date) ∧
    (categoryList s now c).Pairwise (fun a b => b.1.pub_date ≤ a.1.pub_date) ∧
    (profileList s u).Pairwise (fun a b => b.1.pub_date ≤ a.1.pub_date) ∧
    index s now pr = Response.renderIndex (paginate (indexList s now) 10 pr) ∧
    (∀ l : List (Post × Nat), (paginate l 10 pr).length ≤ 10) ∧
    (∀ p cs f, post_detail s now req pid = Response.renderDetail p cs f →
      cs.Pairwise (fun a b => a.created_at ≤ b.created_at) ∧ f = req.isSome) := by
  refine ⟨sorted_indexList s now, sorted_categoryList s now c, sorted_profileList s u,
    rfl, fun l => length_paginate l 10 pr, ?_⟩
  intro p cs f hr
  cases hp : findPost s pid with
  | none =>
    simp only [post_detail, hp] at hr
    exact absurd hr (by simp)
  | some post =>
    simp only [post_detail, hp] at hr
    by_cases hc : ¬ (visibleToPublic s now post = true) ∧ ¬ (req = some post.author)
    · rw [if_pos hc] at hr
      exact absurd hr (by simp)
    · rw [if_neg hc] at hr
      injection hr with h1 h2 h3
      subst h2
      subst h3
      exact ⟨sorted_detailComments s post, rfl⟩

/-- C7 witness: the served demonstration post lists its two comments in
creation order and offers the form to the authenticated requester. -/
theorem C7_witness :
    (detailComments demoStore postA).Pairwise
      (fun a b => a.created_at ≤ b.created_at) ∧
    true = (some 1 : Option Nat).isSome :=
  (C7_ordering_pagination demoStore 10 none (some 1) cat1 user1 1).2.2.2.2.2
    postA (detailComments demoStore postA) true (by decide)

/-- C8: an authenticated comment submission with empty text on an
existing post fails validation, leaves the store unchanged — no comment
row is created — and sends the requester back to that post's detail
view. -/
theorem C8_empty_comment_noop (s : Store) (now : Nat) (u pid : Nat) (post : Post)
    (hp : findPost s pid = some post) :
    commentFormIsValid "" = false ∧
    add_comment s now (some u) pid "" = (Response.redirectPostDetail pid, s) := by
  refine ⟨rfl, ?_⟩
  simp [add_comment, hp, commentFormIsValid]

/-- C8 witness: an empty comment by user 1 on the demonstration post
leaves the demonstration store untouched. -/
theorem C8_witness :
    commentFormIsValid "" = false ∧
    add_comment demoStore 10 (some 1) 1 "" =
      (Response.redirectPostDetail 1, demoStore) :=
  C8_empty_comment_noop demoStore 10 1 1 postA (by decide)

/-- C9: the profile handler never reads the requesting principal, so any
two requesters — anonymous included — receive the identical response for
the same username, page and store; in particular every post of the
profiled user, unpublished or future-dated ones included, is listed to
every requester. -/
theorem C9_profile_requester_blind (s : Store) (pr : Option Nat) (name : String)
    (r1 r2 : Option Nat) :
    profile s r1 pr name = profile s r2 pr name ∧
    (∀ u p, findUser s name = some u → p ∈ s.posts → p.author = u.id →
      ∃ k, (p, k) ∈ profileList s u) := by
  refine ⟨rfl, ?_⟩
  intro u p hu hp ha
  exact ⟨commentCount s p.id, (mem_profileList s u p _).mpr ⟨hp, ha, rfl⟩⟩

/-- C9 witness: the unpublished demonstration post of user 1 is listed in
their profile feed as computed for an anonymous request. -/
theorem C9_witness : ∃ k, (postC, k) ∈ profileList demoStore user1 :=
  (C9_profile_requester_blind demoStore none "alice" none (some 2)).2
    user1 postC (by decide) (by decide) (by decide)

/-- C10: a stored post without a category whose is_published flag is set
and whose pub_date is at or before now is served by the single-post view
to every requester, anonymous ones included, yet never appears in the
home feed, which excludes category-less posts. -/
theorem C10_categoryless_detail_not_in_feed (s : Store) (now : Nat) (req : Option Nat)
    (p : Post) (hp : findPost s p.id = some p) (hcat : p.category = none)
    (hpub : p.is_published = true) (hdate : p.pub_date ≤ now) :
    post_detail s now req p.id = Response.renderDetail p (detailComments s p) req.isSome ∧
    ∀ k, (p, k) ∉ indexList s now := by
  constructor
  · have hv : visibleToPublic s now p = true := by
      simp [visibleToPublic, hpub, hcat, hdate]
    simp [post_detail, hp, hv]
  · intro k hk
    rcases (mem_indexList s now p k).mp hk with ⟨_, _, hc, _, _⟩
    rcases (categoryPub_iff s p).mp hc with ⟨cid, c', hcid, _, _⟩
    rw [hcat] at hcid
    cases hcid

/-- C10 witness: the category-less published demonstration post is served
to an anonymous requester. -/
theorem C10_witness :
    post_detail demoStore 10 none 2 =
      Response.renderDetail postB (detailComments demoStore postB) false :=
  (C10_categoryless_detail_not_in_feed demoStore 10 none postB
    (by decide) rfl rfl (by decide)).1

end Blogicum
